import Mathlib

/-!
Verification of the Forskoleappen attendance pipeline
(src/forskoleappen/forskoleappen.py).

The script reads childcare attendance records, filters complete rows for
selected weekdays, expands each check-in/out and schedule-in/out interval
into the integer hours it covers, aggregates counts per hour of day, and
plots them.  This file embeds the data-shaping pipeline (loading, row
filtering, interval expansion, hour aggregation) and proves the spec's
claims about it.  Chart rendering is out of scope.
-/

namespace Forskoleappen

/-- A cell of one of the four time-of-day columns (Schedule-in, Schedule-out,
Check-in, Check-out) as loaded from the spreadsheet: either the placeholder
string "-" or a clock time.  Combining the row's Date with a clock time
(the script's pd.to_datetime call) yields a timestamp whose hour of day is
the clock time's hour component. -/
inductive TimeField where
  | placeholder : TimeField
  | clock (hour minute : Nat) : TimeField
deriving DecidableEq, Repr

/-- Hour of day of the timestamp obtained from Date plus this time cell
(the script's PeriodIndex(..., freq=H).hour).  Rows with a placeholder never
reach the expansion loop: the row filter removes them first. -/
def TimeField.hourOf : TimeField → Nat
  | TimeField.placeholder => 0
  | TimeField.clock h _ => h

/-- One attendance row, with the column names fixed by read_local_data:
SchoolId, WorkGroupId, Date, ChildId, ChildFirstName, Schedule-in,
Schedule-out, Check-in, Check-out, FreeTime, Absent.  Date is modelled as
a day number (day 0 is a Monday), which determines the derived weekday. -/
structure Record where
  schoolId : Nat
  workGroupId : Nat
  date : Nat
  childId : Nat
  childFirstName : String
  scheduleIn : TimeField
  scheduleOut : TimeField
  checkIn : TimeField
  checkOut : TimeField
  freeTime : Int
  absent : Int
deriving DecidableEq, Repr

/-- The English weekday names, Monday first (day 0 of the Date model is a
Monday). -/
def weekdayNames : List String :=
  ["Monday", "Tuesday", "Wednesday", "Thursday", "Friday", "Saturday", "Sunday"]

/-- Models df['Date'].dt.day_name(): the weekday name derived from the date. -/
def dayName (d : Nat) : String :=
  weekdayNames.getD (d % 7) "Monday"

/-! ### Record Loader -/

/-- Models pd.concat(frames, ...): raises ValueError when the collection of
frames is empty, otherwise concatenates the rows. -/
def pd_concat (frames : List (List Record)) : Except String (List Record) :=
  match frames with
  | [] => Except.error "ValueError: No objects to concatenate"
  | _ => Except.ok frames.flatten

/-- Models read_local_data: each spreadsheet file matching the *.xls glob
contributes one frame of rows (the parsed file contents); the per-file
frames are concatenated with pd.concat. -/
def read_local_data (fileFrames : List (List Record)) : Except String (List Record) :=
  pd_concat fileFrames

/-- Models read_from_db(school, date): the function builds its SQL query by
string formatting with the school and the from date, then evaluates
pandas.read_sql.  The module was imported as pd, so the name pandas is
unbound and the call raises NameError before any query runs. -/
def read_from_db (school : String) (date : String) : Except String (List Record) :=
  let query : String :=
    "SELECT SchoolId, WorkGroupId, Date, ChildId, ChildFirstName, Schedule-in, Schedule-out, Check-in, Check-out, FreeTime, Absent FROM table_with_attendance_data WHERE SchoolId= "
      ++ school ++ " AND Date >= " ++ date
  let _ := query
  Except.error "NameError: name pandas is not defined"

/-- Models a Python call to read_from_db with a list of supplied positional
arguments: the function demands exactly two (school, date), so any other
arity raises TypeError at the call site. -/
def callReadFromDb (args : List String) : Except String (List Record) :=
  match args with
  | [school, date] => read_from_db school date
  | _ => Except.error "TypeError: read_from_db missing 2 required positional arguments: school and date"

/-- Models the start of prep_and_visualize: df = read_local_data() when
local_read else read_from_db().  The else branch calls read_from_db with
zero arguments. -/
def loadRecords (local_read : Bool) (fileFrames : List (List Record)) :
    Except String (List Record) :=
  if local_read then read_local_data fileFrames else callReadFromDb []

/-! ### Row Filter -/

/-- Models the days-of-interest list: all five school weekdays for 'All',
otherwise the single named day. -/
def daysOfInterest (days : String) : List String :=
  if days = "All" then ["Monday", "Tuesday", "Wednesday", "Thursday", "Friday"]
  else [days]

/-- The row filter's predicate, in the source's order:
(Check-in != '-') & (FreeTime == 0) & (Schedule-in != '-')
& (Schedule-out != '-') & (Check-out != '-') & (Weekday in doi). -/
def keepRow (doi : List String) (r : Record) : Bool :=
  decide (r.checkIn ≠ TimeField.placeholder) && decide (r.freeTime = 0)
    && decide (r.scheduleIn ≠ TimeField.placeholder)
    && decide (r.scheduleOut ≠ TimeField.placeholder)
    && decide (r.checkOut ≠ TimeField.placeholder)
    && decide (dayName r.date ∈ doi)

/-- Models the filtered dataframe fdf: the rows of df passing keepRow. -/
def fdf (df : List Record) (doi : List String) : List Record :=
  df.filter (keepRow doi)

/-! ### Interval Expander -/

/-- Models Python range(a, b) as a list: the integers from a up to but not
including b, and the empty list when b ≤ a. -/
def pyRange (a b : Nat) : List Nat :=
  List.range' a (b - a)

/-- Models list(range(start_hour, end_hour + 1)): the hours covered by an
interval running from start_hour to end_hour inclusive. -/
def expandHours (startHour endHour : Nat) : List Nat :=
  pyRange startHour (endHour + 1)

/-- The hours covered by a row's actual interval: the loop body's
chours = list(range(check-in hour, check-out hour + 1)). -/
def chours (r : Record) : List Nat :=
  expandHours r.checkIn.hourOf r.checkOut.hourOf

/-- The hours covered by a row's planned interval: the loop body's
phours = list(range(schedule-in hour, schedule-out hour + 1)). -/
def phours (r : Record) : List Nat :=
  expandHours r.scheduleIn.hourOf r.scheduleOut.hourOf

/-- The list tchours of per-row actual hour lists, in row order. -/
def tchours (rows : List Record) : List (List Nat) :=
  rows.map chours

/-- The list tphours of per-row planned hour lists, in row order. -/
def tphours (rows : List Record) : List (List Nat) :=
  rows.map phours

/-! ### Hour Aggregator -/

/-- Models flat_list = [item for sublist in tchours for item in sublist]. -/
def flat_list (rows : List Record) : List Nat :=
  (tchours rows).flatten

/-- Models flat_list_2, the flattening of the planned hour lists. -/
def flat_list_2 (rows : List Record) : List Nat :=
  (tphours rows).flatten

/-- Models sorted(Counter(l).items()): the distinct values of l paired with
their multiplicities, sorted by value. -/
def counterItems (l : List Nat) : List (Nat × Nat) :=
  l.dedup.mergeSort.map fun h => (h, l.count h)

/-- Models checkcount = sorted(Counter(flat_list).items()) over the filtered
rows. -/
def checkcount (rows : List Record) : List (Nat × Nat) :=
  counterItems (flat_list rows)

/-- Models plancount = sorted(Counter(flat_list_2).items()) over the filtered
rows. -/
def plancount (rows : List Record) : List (Nat × Nat) :=
  counterItems (flat_list_2 rows)

/-- What a Counter mapping assigns to a key: the paired count when the key
occurs, and 0 for a key absent from the items (Counter returns 0 for
missing keys). -/
def lookupCount (items : List (Nat × Nat)) (h : Nat) : Nat :=
  (items.lookup h).getD 0

/-! ### Supporting lemmas about the aggregator -/

theorem lookup_map_pair (keys : List Nat) (f : Nat → Nat) (h : Nat) :
    (keys.map fun k => (k, f k)).lookup h = if h ∈ keys then some (f h) else none := by
  induction keys with
  | nil => simp
  | cons k ks ih =>
      by_cases hk : h = k
      · subst hk
        simp [List.lookup]
      · have hb : (h == k) = false := by simp [hk]
        simp [List.lookup, hb, hk, ih]

theorem mem_mergeSort_dedup (l : List Nat) (h : Nat) :
    h ∈ l.dedup.mergeSort ↔ h ∈ l := by
  rw [(List.mergeSort_perm l.dedup _).mem_iff, List.mem_dedup]

theorem lookupCount_counterItems (l : List Nat) (h : Nat) :
    lookupCount (counterItems l) h = l.count h := by
  rw [lookupCount, counterItems, lookup_map_pair]
  by_cases hm : h ∈ l.dedup.mergeSort
  · simp [hm]
  · rw [if_neg hm, Option.getD_none]
    rw [mem_mergeSort_dedup] at hm
    exact (List.count_eq_zero.mpr hm).symm

theorem sum_map_add_nat (xs : List Nat) (f g : Nat → Nat) :
    (xs.map fun k => f k + g k).sum = (xs.map f).sum + (xs.map g).sum := by
  induction xs with
  | nil => simp
  | cons x t ih => simp [ih]; omega

theorem sum_map_indicator (xs : List Nat) (a : Nat) :
    (xs.map fun k => if k = a then 1 else 0).sum = xs.count a := by
  induction xs with
  | nil => simp
  | cons x t ih =>
      by_cases hx : x = a
      · subst hx
        simp [List.count_cons, ih]
        omega
      · simp [List.count_cons, hx, ih, Ne.symm hx]

theorem sum_count_dedup (l : List Nat) :
    (l.dedup.map fun k => l.count k).sum = l.length := by
  induction l with
  | nil => simp
  | cons a t ih =>
      have hcc : ∀ ks : List Nat,
          (ks.map fun k => (a :: t).count k).sum
            = (ks.map fun k => t.count k).sum + (ks.map fun k => if k = a then 1 else 0).sum := by
        intro ks
        rw [← sum_map_add_nat]
        refine congrArg List.sum (List.map_congr_left ?_)
        intro k _
        rcases eq_or_ne k a with rfl | hne
        · simp [List.count_cons]
        · simp [List.count_cons, hne, Ne.symm hne]
      by_cases h : a ∈ t
      · rw [List.dedup_cons_of_mem h, hcc, ih, sum_map_indicator, List.count_dedup,
          if_pos h, List.length_cons]
      · rw [List.dedup_cons_of_not_mem h, List.map_cons, List.sum_cons, hcc, ih,
          sum_map_indicator, List.count_dedup, if_neg h, List.count_cons_self,
          List.count_eq_zero.mpr h, List.length_cons]
        omega

theorem sum_snd_counterItems (l : List Nat) :
    ((counterItems l).map Prod.snd).sum = l.length := by
  rw [counterItems, List.map_map]
  have hperm : (l.dedup.mergeSort.map fun k => l.count k).Perm
      (l.dedup.map fun k => l.count k) :=
    (List.mergeSort_perm l.dedup _).map _
  have : (Prod.snd ∘ fun h => (h, l.count h)) = fun k => l.count k := rfl
  rw [this, hperm.sum_eq, sum_count_dedup]

theorem counterItems_keys_sorted (l : List Nat) :
    List.Sorted (· ≤ ·) ((counterItems l).map Prod.fst) := by
  have hkeys : (counterItems l).map Prod.fst = l.dedup.mergeSort := by
    rw [counterItems, List.map_map]
    exact List.map_id _
  rw [hkeys]
  exact List.sorted_mergeSort' _

theorem mem_expandHours (s e h : Nat) :
    h ∈ expandHours s e ↔ s ≤ h ∧ h ≤ e := by
  rw [expandHours, pyRange, List.mem_range'_1]
  omega

theorem nodup_expandHours (s e : Nat) : (expandHours s e).Nodup :=
  List.nodup_range' _ _

theorem sum_map_ite_length {α : Type} (xs : List α) (p : α → Prop) [DecidablePred p] :
    (xs.map fun x => if p x then 1 else 0).sum = (xs.filter fun x => decide (p x)).length := by
  induction xs with
  | nil => simp
  | cons x t ih =>
      by_cases hx : p x
      · simp [hx, ih]
        omega
      · simp [hx, ih]

theorem count_flat_list (rows : List Record) (h : Nat) :
    (flat_list rows).count h = (rows.filter fun r => decide (h ∈ chours r)).length := by
  rw [flat_list, tchours, List.count_flatten, List.map_map]
  rw [← sum_map_ite_length rows (fun r => h ∈ chours r)]
  refine congrArg List.sum (List.map_congr_left ?_)
  intro r _
  by_cases hr : h ∈ chours r
  · simp only [Function.comp_apply, hr, if_true]
    exact List.count_eq_one_of_mem (nodup_expandHours _ _) hr
  · simp only [Function.comp_apply, hr, if_false]
    exact List.count_eq_zero.mpr hr

theorem count_flat_list_2 (rows : List Record) (h : Nat) :
    (flat_list_2 rows).count h = (rows.filter fun r => decide (h ∈ phours r)).length := by
  rw [flat_list_2, tphours, List.count_flatten, List.map_map]
  rw [← sum_map_ite_length rows (fun r => h ∈ phours r)]
  refine congrArg List.sum (List.map_congr_left ?_)
  intro r _
  by_cases hr : h ∈ phours r
  · simp only [Function.comp_apply, hr, if_true]
    exact List.count_eq_one_of_mem (nodup_expandHours _ _) hr
  · simp only [Function.comp_apply, hr, if_false]
    exact List.count_eq_zero.mpr hr

theorem mem_fdf (df : List Record) (doi : List String) (r : Record) :
    r ∈ fdf df doi ↔
      r ∈ df ∧ r.checkIn ≠ TimeField.placeholder ∧ r.freeTime = 0
        ∧ r.scheduleIn ≠ TimeField.placeholder ∧ r.scheduleOut ≠ TimeField.placeholder
        ∧ r.checkOut ≠ TimeField.placeholder ∧ dayName r.date ∈ doi := by
  simp [fdf, keepRow, List.mem_filter, and_assoc]

theorem doi_monday : daysOfInterest "Monday" = ["Monday"] := by decide

/-! ### Sample records used to instantiate the theorems -/

/-- A Monday row, 08:00 to 16:00 both actual and scheduled. -/
def recMon8 : Record :=
  { schoolId := 1, workGroupId := 1, date := 0, childId := 1, childFirstName := "Alma",
    scheduleIn := TimeField.clock 8 0, scheduleOut := TimeField.clock 16 0,
    checkIn := TimeField.clock 8 0, checkOut := TimeField.clock 16 0,
    freeTime := 0, absent := 0 }

/-- A Tuesday row identical to recMon8 apart from its date. -/
def recTue8 : Record :=
  { schoolId := 1, workGroupId := 1, date := 1, childId := 2, childFirstName := "Ben",
    scheduleIn := TimeField.clock 8 0, scheduleOut := TimeField.clock 16 0,
    checkIn := TimeField.clock 8 0, checkOut := TimeField.clock 16 0,
    freeTime := 0, absent := 0 }

/-- A Monday row checked in 08:30 and out 11:15 (the spec's expansion example). -/
def recMon : Record :=
  { schoolId := 1, workGroupId := 1, date := 0, childId := 3, childFirstName := "Cleo",
    scheduleIn := TimeField.clock 8 30, scheduleOut := TimeField.clock 11 15,
    checkIn := TimeField.clock 8 30, checkOut := TimeField.clock 11 15,
    freeTime := 0, absent := 0 }

/-- A Monday row whose intervals end at an earlier hour than they start. -/
def recWrap : Record :=
  { schoolId := 1, workGroupId := 1, date := 0, childId := 4, childFirstName := "Dag",
    scheduleIn := TimeField.clock 22 0, scheduleOut := TimeField.clock 3 0,
    checkIn := TimeField.clock 22 0, checkOut := TimeField.clock 3 0,
    freeTime := 0, absent := 0 }

/-- A Monday row with a placeholder Check-in cell. -/
def recPh : Record :=
  { schoolId := 1, workGroupId := 1, date := 0, childId := 5, childFirstName := "Eir",
    scheduleIn := TimeField.clock 8 0, scheduleOut := TimeField.clock 16 0,
    checkIn := TimeField.placeholder, checkOut := TimeField.clock 16 0,
    freeTime := 0, absent := 0 }

/-- A Monday row with a nonzero FreeTime flag. -/
def recFree : Record :=
  { schoolId := 1, workGroupId := 1, date := 0, childId := 6, childFirstName := "Fia",
    scheduleIn := TimeField.clock 8 0, scheduleOut := TimeField.clock 16 0,
    checkIn := TimeField.clock 8 0, checkOut := TimeField.clock 16 0,
    freeTime := 1, absent := 0 }

/-- A Monday row marked absent, 09:00 to 10:00, otherwise complete. -/
def recAbsent : Record :=
  { schoolId := 1, workGroupId := 1, date := 0, childId := 7, childFirstName := "Gry",
    scheduleIn := TimeField.clock 9 0, scheduleOut := TimeField.clock 10 0,
    checkIn := TimeField.clock 9 0, checkOut := TimeField.clock 10 0,
    freeTime := 0, absent := 1 }

/-- The two-row end-to-end input: one Monday row, one identical Tuesday row. -/
def df0 : List Record := [recMon8, recTue8]

/-! ### The claims -/

/-- C1: for every interval whose start hour is at most its end hour, the
interval expander returns exactly end_hour - start_hour + 1 consecutive
integers starting at start_hour and ending at end_hour inclusive, and this
is exactly what is applied to the actual (check-in/out) and planned
(schedule-in/out) interval of each filtered record. -/
theorem C1_interval_expansion (s e : Nat) (r : Record) (hse : s ≤ e) :
    expandHours s e = List.range' s (e - s + 1) ∧
    (expandHours s e).length = e - s + 1 ∧
    (∀ h, h ∈ expandHours s e ↔ s ≤ h ∧ h ≤ e) ∧
    chours r = expandHours r.checkIn.hourOf r.checkOut.hourOf ∧
    phours r = expandHours r.scheduleIn.hourOf r.scheduleOut.hourOf := by
  refine ⟨?_, ?_, fun h => mem_expandHours s e h, rfl, rfl⟩
  · rw [expandHours, pyRange]
    congr 1
    omega
  · rw [expandHours, pyRange, List.length_range']
    omega

/-- Witness for C1 at the spec's own example: an 08:30 to 11:15 interval
yields the four hours 8, 9, 10, 11. -/
theorem C1_interval_expansion_witness :
    (8 : Nat) ≤ 11 ∧ expandHours 8 11 = [8, 9, 10, 11] ∧
    (expandHours 8 11).length = 11 - 8 + 1 ∧
    chours recMon = expandHours 8 11 :=
  ⟨by decide, by decide, (C1_interval_expansion 8 11 recMon (by decide)).2.1,
    (C1_interval_expansion 8 11 recMon (by decide)).2.2.2.1⟩

/-- C2: the aggregated counts, summed over all hours of the mapping, equal
the sum over the filtered records of the length of each record's expanded
hour list, separately for the actual and the planned counts. -/
theorem C2_total_count (df : List Record) (days : String) :
    ((checkcount (fdf df (daysOfInterest days))).map Prod.snd).sum
        = ((tchours (fdf df (daysOfInterest days))).map List.length).sum ∧
    ((plancount (fdf df (daysOfInterest days))).map Prod.snd).sum
        = ((tphours (fdf df (daysOfInterest days))).map List.length).sum := by
  constructor
  · rw [checkcount, sum_snd_counterItems, flat_list, List.length_flatten]
  · rw [plancount, sum_snd_counterItems, flat_list_2, List.length_flatten]

/-- C3: for every hour of day 0 through 23, the aggregator mapping assigns
to that hour (0 for hours absent from the items, as Counter does) the
number of filtered records whose expanded interval includes that hour, and
the mapping is sorted by hour; separately for actual and planned. -/
theorem C3_hour_counts (df : List Record) (days : String) (h : Nat) (_hh : h ≤ 23) :
    lookupCount (checkcount (fdf df (daysOfInterest days))) h
        = ((fdf df (daysOfInterest days)).filter fun r => decide (h ∈ chours r)).length ∧
    lookupCount (plancount (fdf df (daysOfInterest days))) h
        = ((fdf df (daysOfInterest days)).filter fun r => decide (h ∈ phours r)).length ∧
    List.Sorted (· ≤ ·) ((checkcount (fdf df (daysOfInterest days))).map Prod.fst) ∧
    List.Sorted (· ≤ ·) ((plancount (fdf df (daysOfInterest days))).map Prod.fst) := by
  refine ⟨?_, ?_, counterItems_keys_sorted _, counterItems_keys_sorted _⟩
  · rw [checkcount, lookupCount_counterItems, count_flat_list]
  · rw [plancount, lookupCount_counterItems, count_flat_list_2]

/-- Witness for C3 on the two-row end-to-end input with days Monday: at
hour 9 the actual count is the number of covering Monday records, which is
1 (the Tuesday record contributes nothing). -/
theorem C3_hour_counts_witness :
    (9 : Nat) ≤ 23 ∧
    lookupCount (checkcount (fdf df0 (daysOfInterest "Monday"))) 9
        = ((fdf df0 (daysOfInterest "Monday")).filter fun r => decide (9 ∈ chours r)).length ∧
    ((fdf df0 (daysOfInterest "Monday")).filter fun r => decide (9 ∈ chours r)).length = 1 :=
  ⟨by decide, (C3_hour_counts df0 "Monday" 9 (by decide)).1, by decide⟩

/-- C4: no record with the placeholder in any of Check-in, Check-out,
Schedule-in, Schedule-out appears in the row filter's output. -/
theorem C4_placeholder_excluded (df : List Record) (doi : List String) (r : Record)
    (hp : r.checkIn = TimeField.placeholder ∨ r.checkOut = TimeField.placeholder
        ∨ r.scheduleIn = TimeField.placeholder ∨ r.scheduleOut = TimeField.placeholder) :
    r ∉ fdf df doi := by
  intro hmem
  rw [mem_fdf] at hmem
  rcases hp with h | h | h | h <;> tauto

/-- Witness for C4: the row with a placeholder Check-in is not in the
filtered output even though its weekday is selected. -/
theorem C4_placeholder_excluded_witness :
    recPh.checkIn = TimeField.placeholder ∧ recPh ∉ fdf [recPh] ["Monday"] :=
  ⟨by decide, C4_placeholder_excluded [recPh] ["Monday"] recPh (Or.inl (by decide))⟩

/-- C5: no record whose FreeTime flag is nonzero appears in the row
filter's output. -/
theorem C5_freetime_excluded (df : List Record) (doi : List String) (r : Record)
    (hf : r.freeTime ≠ 0) : r ∉ fdf df doi := by
  intro hmem
  rw [mem_fdf] at hmem
  tauto

/-- Witness for C5: the row with FreeTime 1 is not in the filtered output. -/
theorem C5_freetime_excluded_witness :
    recFree.freeTime ≠ 0 ∧ recFree ∉ fdf [recFree] ["Monday"] :=
  ⟨by decide, C5_freetime_excluded [recFree] ["Monday"] recFree (by decide)⟩

/-- C6: with days Monday, every filtered record has derived weekday Monday,
and the hour counts are unchanged when records of any other weekday are
removed from the input, so those records contribute nothing. -/
theorem C6_monday_only (df : List Record) (r : Record)
    (hr : r ∈ fdf df (daysOfInterest "Monday")) :
    dayName r.date = "Monday" ∧
    checkcount (fdf df (daysOfInterest "Monday"))
        = checkcount (fdf (df.filter fun x => decide (dayName x.date = "Monday"))
            (daysOfInterest "Monday")) ∧
    plancount (fdf df (daysOfInterest "Monday"))
        = plancount (fdf (df.filter fun x => decide (dayName x.date = "Monday"))
            (daysOfInterest "Monday")) := by
  have hres : fdf df (daysOfInterest "Monday")
      = fdf (df.filter fun x => decide (dayName x.date = "Monday")) (daysOfInterest "Monday") := by
    rw [fdf, fdf, List.filter_filter]
    refine List.filter_congr ?_
    intro a _
    by_cases hm : dayName a.date = "Monday"
    · simp [hm]
    · have hk : keepRow (daysOfInterest "Monday") a = false := by
        simp [keepRow, doi_monday, hm]
      simp [hk]
  refine ⟨?_, by rw [hres], by rw [hres]⟩
  rw [mem_fdf, doi_monday] at hr
  simpa using hr.2.2.2.2.2.2

/-- Witness for C6 on the two-row end-to-end input: the Monday record is in
the filtered set, its weekday is Monday, and dropping non-Monday input rows
leaves the actual counts unchanged. -/
theorem C6_monday_only_witness :
    recMon8 ∈ fdf df0 (daysOfInterest "Monday") ∧
    dayName recMon8.date = "Monday" ∧
    checkcount (fdf df0 (daysOfInterest "Monday"))
        = checkcount (fdf (df0.filter fun x => decide (dayName x.date = "Monday"))
            (daysOfInterest "Monday")) :=
  ⟨by decide, (C6_monday_only df0 recMon8 (by decide)).1,
    (C6_monday_only df0 recMon8 (by decide)).2.1⟩

/-- C7: calling prep_and_visualize with local_read False does not load any
records: the branch calls read_from_db with no arguments although it
requires school and date, so the call raises TypeError; read_from_db
itself, even when given both arguments, fails on the unbound name pandas
before any query is issued. -/
theorem C7_db_branch_fails (fileFrames : List (List Record)) (school date : String) :
    loadRecords false fileFrames
        = Except.error "TypeError: read_from_db missing 2 required positional arguments: school and date" ∧
    read_from_db school date = Except.error "NameError: name pandas is not defined" :=
  ⟨rfl, rfl⟩

/-- C8: when no spreadsheet file matches the glob, the list of per-file
frames is empty and pd.concat raises, so loading fails rather than handing
an empty record set to the rest of the pipeline. -/
theorem C8_no_files_error :
    read_local_data [] = Except.error "ValueError: No objects to concatenate" :=
  rfl

/-- C9: a record whose end hour is strictly below its start hour (actual or
planned) gets the empty hour list from the expander, without error, and
removing such a record from the processed rows leaves the corresponding
counts unchanged. -/
theorem C9_reversed_interval (r : Record) :
    (r.checkOut.hourOf < r.checkIn.hourOf →
      chours r = [] ∧
      ∀ pre post : List Record, checkcount (pre ++ r :: post) = checkcount (pre ++ post)) ∧
    (r.scheduleOut.hourOf < r.scheduleIn.hourOf →
      phours r = [] ∧
      ∀ pre post : List Record, plancount (pre ++ r :: post) = plancount (pre ++ post)) := by
  constructor
  · intro hlt
    have hempty : chours r = [] := by
      rw [chours, expandHours, pyRange, Nat.sub_eq_zero_of_le (by omega)]
      rfl
    refine ⟨hempty, fun pre post => ?_⟩
    rw [checkcount, checkcount, flat_list, flat_list, tchours, tchours]
    simp [hempty]
  · intro hlt
    have hempty : phours r = [] := by
      rw [phours, expandHours, pyRange, Nat.sub_eq_zero_of_le (by omega)]
      rfl
    refine ⟨hempty, fun pre post => ?_⟩
    rw [plancount, plancount, flat_list_2, flat_list_2, tphours, tphours]
    simp [hempty]

/-- Witness for C9: the 22:00 to 03:00 record expands to no hours at all
and dropping it from the processed rows leaves the counts as they were. -/
theorem C9_reversed_interval_witness :
    recWrap.checkOut.hourOf < recWrap.checkIn.hourOf ∧
    chours recWrap = [] ∧
    checkcount ([recMon8] ++ recWrap :: []) = checkcount ([recMon8] ++ []) ∧
    recWrap.scheduleOut.hourOf < recWrap.scheduleIn.hourOf ∧
    phours recWrap = [] :=
  ⟨by decide, ((C9_reversed_interval recWrap).1 (by decide)).1,
    ((C9_reversed_interval recWrap).1 (by decide)).2 [recMon8] [],
    by decide, ((C9_reversed_interval recWrap).2 (by decide)).1⟩

/-- C10: the row filter never consults the Absent flag: a record with any
Absent value is kept whenever its four time cells are non-placeholder, its
FreeTime flag is zero and its weekday is selected, and each hour of its
interval then has a positive aggregated count. -/
theorem C10_absent_not_consulted (df : List Record) (doi : List String) (r : Record)
    (hmem : r ∈ df)
    (h1 : r.checkIn ≠ TimeField.placeholder) (h2 : r.freeTime = 0)
    (h3 : r.scheduleIn ≠ TimeField.placeholder) (h4 : r.scheduleOut ≠ TimeField.placeholder)
    (h5 : r.checkOut ≠ TimeField.placeholder) (h6 : dayName r.date ∈ doi) :
    r ∈ fdf df doi ∧
    ∀ h, h ∈ chours r → 0 < lookupCount (checkcount (fdf df doi)) h := by
  have hr : r ∈ fdf df doi := (mem_fdf df doi r).mpr ⟨hmem, h1, h2, h3, h4, h5, h6⟩
  refine ⟨hr, fun h hh => ?_⟩
  rw [checkcount, lookupCount_counterItems, count_flat_list]
  exact List.length_pos_of_mem (List.mem_filter.mpr ⟨hr, by simp [hh]⟩)

/-- Witness for C10: the record marked absent (Absent 1) passes the filter
and hour 9 of its 09:00 to 10:00 interval is counted. -/
theorem C10_absent_not_consulted_witness :
    recAbsent.absent = 1 ∧
    recAbsent ∈ fdf [recAbsent] ["Monday"] ∧
    0 < lookupCount (checkcount (fdf [recAbsent] ["Monday"])) 9 :=
  ⟨by decide,
    (C10_absent_not_consulted [recAbsent] ["Monday"] recAbsent (by decide) (by decide)
      (by decide) (by decide) (by decide) (by decide) (by decide)).1,
    (C10_absent_not_consulted [recAbsent] ["Monday"] recAbsent (by decide) (by decide)
      (by decide) (by decide) (by decide) (by decide) (by decide)).2 9 (by decide)⟩

end Forskoleappen
